import Mathlib

/-!
Verification of the fitness-statistics calculator (`homework.py`).

The Python module is shallowly embedded over `ℚ`: every numeric field of a
class becomes a rational number, every method becomes a Lean function on the
corresponding structure, dynamic dispatch (`__class__.__name__`, overridden
methods) is resolved statically per subclass, and the fallible factory
`read_package` returns `Except`.  Python's `f'{x:.3f}'` fixed-point
formatting is modelled by `format3` (round to the nearest thousandth,
ties to even, then render with exactly three fractional digits).
-/

/-- Embeds class `InfoMessage` (`homework.py` lines 4-18): the report value
object holding a display name and four numeric statistics. -/
structure InfoMessage where
  training_type : String
  duration : ℚ
  distance : ℚ
  speed : ℚ
  calories : ℚ
deriving DecidableEq

/-- Round `q` to the nearest integer, ties to even, as Python's float
formatting does at a representable tie. -/
def roundHalfEven (q : ℚ) : Int :=
  if q - Int.floor q < 1/2 then Int.floor q
  else if 1/2 < q - Int.floor q then Int.floor q + 1
  else if Int.floor q % 2 = 0 then Int.floor q else Int.floor q + 1

/-- Render a natural number below 1000 as exactly three digits. -/
def padFrac (n : Nat) : String :=
  if n < 10 then "00" ++ toString n
  else if n < 100 then "0" ++ toString n
  else toString n

/-- Render a signed count of thousandths as a fixed-point decimal with
exactly three fractional digits. -/
def render3 (m : Int) : String :=
  if m < 0 then
    "-" ++ toString ((-m).toNat / 1000) ++ "." ++ padFrac ((-m).toNat % 1000)
  else
    toString (m.toNat / 1000) ++ "." ++ padFrac (m.toNat % 1000)

/-- Embeds Python's `f'{x:.3f}'` fixed-point formatting of a statistic. -/
def format3 (q : ℚ) : String :=
  render3 (roundHalfEven (q * 1000))

/-- Embeds `InfoMessage.get_message` (lines 20-26): the single fixed-template
report line (the source template is the Russian one). -/
def InfoMessage.get_message (m : InfoMessage) : String :=
  "Тип тренировки: " ++ m.training_type ++
  "; Длительность: " ++ format3 m.duration ++
  " ч.; Дистанция: " ++ format3 m.distance ++
  " км; Ср. скорость: " ++ format3 m.speed ++
  " км/ч; Потрачено ккал: " ++ format3 m.calories ++ "."

/-- Embeds class `Training` (lines 29-65): action count, duration in hours,
body weight in kg. -/
structure Training where
  action : ℚ
  duration : ℚ
  weight : ℚ
deriving DecidableEq

/-- Class constant `Training.LEN_STEP = 0.65` (line 32). -/
def Training.LEN_STEP : ℚ := 0.65

/-- Class constant `Training.M_IN_KM = 1000` (line 33). -/
def Training.M_IN_KM : ℚ := 1000

/-- Class constant `Training.H_IN_MIN = 60` (line 34). -/
def Training.H_IN_MIN : ℚ := 60

/-- Embeds `Training.get_distance` (lines 45-47). -/
def Training.get_distance (t : Training) : ℚ :=
  t.action * Training.LEN_STEP / Training.M_IN_KM

/-- Embeds `Training.get_mean_speed` (lines 49-51). -/
def Training.get_mean_speed (t : Training) : ℚ :=
  t.get_distance / t.duration

/-- Embeds `Training.get_spent_calories` (lines 53-55): the base-class
fallback. -/
def Training.get_spent_calories (t : Training) : ℚ :=
  t.duration * t.weight

/-- Embeds `Training.duration_in_min` (lines 57-59). -/
def Training.duration_in_min (t : Training) : ℚ :=
  t.duration * Training.H_IN_MIN

/-- Embeds `Training.show_training_info` (lines 61-65) as dispatched on a
plain `Training` instance (`__class__.__name__` is `"Training"`). -/
def Training.show_training_info (t : Training) : InfoMessage :=
  ⟨"Training", t.duration, t.get_distance, t.get_mean_speed,
    t.get_spent_calories⟩

/-- Embeds class `Running` (lines 68-79); it adds no fields. -/
structure Running where
  action : ℚ
  duration : ℚ
  weight : ℚ
deriving DecidableEq

/-- The `Training` view of a `Running` instance (inherited fields). -/
def Running.toTraining (r : Running) : Training :=
  ⟨r.action, r.duration, r.weight⟩

/-- Class constant `Running.CALORIES_MEAN_SPEED_MULTIPLIER = 18` (line 70). -/
def Running.CALORIES_MEAN_SPEED_MULTIPLIER : ℚ := 18

/-- Class constant `Running.CALORIES_MEAN_SPEED_SHIFT = 1.79` (line 71). -/
def Running.CALORIES_MEAN_SPEED_SHIFT : ℚ := 1.79

/-- Embeds `Running.get_spent_calories` (lines 73-79). -/
def Running.get_spent_calories (r : Running) : ℚ :=
  ((Running.CALORIES_MEAN_SPEED_MULTIPLIER * r.toTraining.get_mean_speed
      + Running.CALORIES_MEAN_SPEED_SHIFT)
    * r.weight) / Training.M_IN_KM * r.toTraining.duration_in_min

/-- `Training.show_training_info` dispatched on a `Running` instance:
the display name is `"Running"` and `get_spent_calories` is the override. -/
def Running.show_training_info (r : Running) : InfoMessage :=
  ⟨"Running", r.duration, r.toTraining.get_distance,
    r.toTraining.get_mean_speed, r.get_spent_calories⟩

/-- Embeds class `SportsWalking` (lines 82-108); it adds `height` in cm. -/
structure SportsWalking where
  action : ℚ
  duration : ℚ
  weight : ℚ
  height : ℚ
deriving DecidableEq

/-- The `Training` view of a `SportsWalking` instance (inherited fields). -/
def SportsWalking.toTraining (w : SportsWalking) : Training :=
  ⟨w.action, w.duration, w.weight⟩

/-- Class constant `BIG_CALORIES_MEAN_WEIGHT_MULTIPLIER = 0.035` (line 85). -/
def SportsWalking.BIG_CALORIES_MEAN_WEIGHT_MULTIPLIER : ℚ := 0.035

/-- Class constant `SMALL_CALORIES_MEAN_WEIGHT_MULTIPLIER = 0.029`
(line 86). -/
def SportsWalking.SMALL_CALORIES_MEAN_WEIGHT_MULTIPLIER : ℚ := 0.029

/-- Class constant `KM_PER_H_IN_METR_PER_SEC = 0.278` (line 87). -/
def SportsWalking.KM_PER_H_IN_METR_PER_SEC : ℚ := 0.278

/-- Class constant `SM_IN_M = 100` (line 88). -/
def SportsWalking.SM_IN_M : ℚ := 100

/-- Embeds `SportsWalking.get_spent_calories` (lines 99-108). -/
def SportsWalking.get_spent_calories (w : SportsWalking) : ℚ :=
  let mean_sport_speed : ℚ :=
    w.toTraining.get_mean_speed * SportsWalking.KM_PER_H_IN_METR_PER_SEC
  (SportsWalking.BIG_CALORIES_MEAN_WEIGHT_MULTIPLIER * w.weight
      + (mean_sport_speed ^ 2 / (w.height / SportsWalking.SM_IN_M))
        * SportsWalking.SMALL_CALORIES_MEAN_WEIGHT_MULTIPLIER
        * w.weight)
    * w.toTraining.duration_in_min

/-- `Training.show_training_info` dispatched on a `SportsWalking` instance. -/
def SportsWalking.show_training_info (w : SportsWalking) : InfoMessage :=
  ⟨"SportsWalking", w.duration, w.toTraining.get_distance,
    w.toTraining.get_mean_speed, w.get_spent_calories⟩

/-- Embeds class `Swimming` (lines 111-138); it adds pool length in meters
and lap count, and overrides `LEN_STEP` and `get_mean_speed`. -/
structure Swimming where
  action : ℚ
  duration : ℚ
  weight : ℚ
  length_pool : ℚ
  count_pool : ℚ
deriving DecidableEq

/-- The `Training` view of a `Swimming` instance (inherited fields). -/
def Swimming.toTraining (s : Swimming) : Training :=
  ⟨s.action, s.duration, s.weight⟩

/-- Class constant `Swimming.LEN_STEP = 1.38` (line 114), overriding the
base class's `0.65`. -/
def Swimming.LEN_STEP : ℚ := 1.38

/-- Class constant `CALORIES_WEIGHT_RATIO_SPENT_MULTIPLIER = 2` (line 115). -/
def Swimming.CALORIES_WEIGHT_RATIO_SPENT_MULTIPLIER : ℚ := 2

/-- Class constant `Swimming.CALORIES_MEAN_SPEED_SHIFT = 1.1` (line 116). -/
def Swimming.CALORIES_MEAN_SPEED_SHIFT : ℚ := 1.1

/-- `Training.get_distance` dispatched on a `Swimming` instance: the
`self.LEN_STEP` lookup resolves to Swimming's `1.38`. -/
def Swimming.get_distance (s : Swimming) : ℚ :=
  s.action * Swimming.LEN_STEP / Training.M_IN_KM

/-- Embeds `Swimming.get_mean_speed` (lines 129-132): the override using
pool length and lap count. -/
def Swimming.get_mean_speed (s : Swimming) : ℚ :=
  s.length_pool * s.count_pool / Training.M_IN_KM / s.duration

/-- Embeds `Swimming.get_spent_calories` (lines 134-138). -/
def Swimming.get_spent_calories (s : Swimming) : ℚ :=
  (s.get_mean_speed + Swimming.CALORIES_MEAN_SPEED_SHIFT)
    * Swimming.CALORIES_WEIGHT_RATIO_SPENT_MULTIPLIER
    * s.weight * s.duration

/-- `Training.show_training_info` dispatched on a `Swimming` instance:
`get_distance` uses the overridden `LEN_STEP` and `get_mean_speed` and
`get_spent_calories` are the overrides. -/
def Swimming.show_training_info (s : Swimming) : InfoMessage :=
  ⟨"Swimming", s.duration, s.get_distance, s.get_mean_speed,
    s.get_spent_calories⟩

/-- The result of the factory: one of the three variant instances. -/
inductive Session where
  | swm : Swimming → Session
  | run : Running → Session
  | wlk : SportsWalking → Session
deriving DecidableEq

/-- The ways `read_package` can fail: the explicit `ValueError` raised for an
unknown workout code (line 149), or the `TypeError` Python raises when the
reading list's length does not match the chosen constructor's arity
(line 151, `commands[workout_name](*statistics)`). -/
inductive ReadError where
  | unknownWorkoutType : ReadError
  | arityMismatch : ReadError
deriving DecidableEq

/-- Embeds `read_package` (lines 141-151): validate the code against the
dict's keys, then positionally bind the readings to the chosen variant's
constructor. -/
def read_package (workout_name : String) (statistics : List ℚ) :
    Except ReadError Session :=
  if workout_name = "SWM" then
    match statistics with
    | [a, d, w, lp, cp] => .ok (.swm ⟨a, d, w, lp, cp⟩)
    | _ => .error .arityMismatch
  else if workout_name = "RUN" then
    match statistics with
    | [a, d, w] => .ok (.run ⟨a, d, w⟩)
    | _ => .error .arityMismatch
  else if workout_name = "WLK" then
    match statistics with
    | [a, d, w, h] => .ok (.wlk ⟨a, d, w, h⟩)
    | _ => .error .arityMismatch
  else
    .error .unknownWorkoutType

/-- The mean speed a `Swimming` record would have under the base-class
formula of §4.1 of the spec, `distance / duration_hours` (with Swimming's
own step length), stated for comparison with the override. -/
def Swimming.base_formula_mean_speed (s : Swimming) : ℚ :=
  s.get_distance / s.duration

/-- If `q` falls in `[f, f+1)` with fractional part below one half, `format3`
renders the thousandths count `f` itself. -/
lemma format3_eq_lo (q : ℚ) (f : ℤ) (s : String)
    (h1 : (f : ℚ) ≤ q * 1000) (h3 : q * 1000 - f < 1/2)
    (hs : render3 f = s) : format3 q = s := by
  have hfl : Int.floor (q * 1000) = f :=
    Int.floor_eq_iff.mpr ⟨h1, by linarith⟩
  rw [format3, roundHalfEven, hfl, if_pos (by linarith), hs]

/-- If `q` falls in `[f, f+1)` with fractional part above one half, `format3`
rounds up and renders `f + 1`. -/
lemma format3_eq_hi (q : ℚ) (f : ℤ) (s : String)
    (h2 : q * 1000 < f + 1) (h3 : 1/2 < q * 1000 - f)
    (hs : render3 (f + 1) = s) : format3 q = s := by
  have hfl : Int.floor (q * 1000) = f :=
    Int.floor_eq_iff.mpr ⟨by linarith, by linarith⟩
  rw [format3, roundHalfEven, hfl, if_neg (by linarith), if_pos (by linarith),
    hs]

/-- The `("RUN", [15000, 1, 75])` package of the reference driver. -/
def runSample : Running := ⟨15000, 1, 75⟩

/-- The `("WLK", [9000, 1, 75, 180])` package of the reference driver. -/
def wlkSample : SportsWalking := ⟨9000, 1, 75, 180⟩

/-- The `("SWM", [720, 1, 80, 25, 40])` package of the reference driver. -/
def swmSample : Swimming := ⟨720, 1, 80, 25, 40⟩

/-- With the code `"SWM"`, the factory either binds five readings or fails
on the arity of the reading list, never on the code. -/
lemma read_package_swm_cases (stats : List ℚ) :
    (∃ s, read_package "SWM" stats = .ok (.swm s)) ∨
      read_package "SWM" stats = .error .arityMismatch := by
  match stats with
  | [a, d, w, lp, cp] => exact .inl ⟨⟨a, d, w, lp, cp⟩, rfl⟩
  | [] => exact .inr rfl
  | [a] => exact .inr rfl
  | [a, b] => exact .inr rfl
  | [a, b, c] => exact .inr rfl
  | [a, b, c, d] => exact .inr rfl
  | a :: b :: c :: d :: e :: f :: t => exact .inr rfl

/-- With the code `"RUN"`, the factory either binds three readings or fails
on the arity of the reading list, never on the code. -/
lemma read_package_run_cases (stats : List ℚ) :
    (∃ r, read_package "RUN" stats = .ok (.run r)) ∨
      read_package "RUN" stats = .error .arityMismatch := by
  match stats with
  | [a, d, w] => exact .inl ⟨⟨a, d, w⟩, rfl⟩
  | [] => exact .inr rfl
  | [a] => exact .inr rfl
  | [a, b] => exact .inr rfl
  | a :: b :: c :: d :: t => exact .inr rfl

/-- With the code `"WLK"`, the factory either binds four readings or fails
on the arity of the reading list, never on the code. -/
lemma read_package_wlk_cases (stats : List ℚ) :
    (∃ w, read_package "WLK" stats = .ok (.wlk w)) ∨
      read_package "WLK" stats = .error .arityMismatch := by
  match stats with
  | [a, d, w, h] => exact .inl ⟨⟨a, d, w, h⟩, rfl⟩
  | [] => exact .inr rfl
  | [a] => exact .inr rfl
  | [a, b] => exact .inr rfl
  | [a, b, c] => exact .inr rfl
  | a :: b :: c :: d :: e :: t => exact .inr rfl

/-- C1: for each workout code in the closed set and a reading list of the
matching arity, `read_package` returns the corresponding variant, with the
readings bound positionally to that variant's constructor parameters. -/
theorem read_package_constructs_matching_variant
    (a d w lp cp : ℚ) :
    read_package "SWM" [a, d, w, lp, cp] = .ok (.swm ⟨a, d, w, lp, cp⟩) ∧
    read_package "RUN" [a, d, w] = .ok (.run ⟨a, d, w⟩) ∧
    read_package "WLK" [a, d, w, lp] = .ok (.wlk ⟨a, d, w, lp⟩) :=
  ⟨rfl, rfl, rfl⟩

/-- C2: any code outside the closed set makes `read_package` fail with the
unknown-workout-type error, whatever the readings are; for a code inside the
set the factory never raises that error — a wrong reading count surfaces only
as the positional-binding failure, since the factory performs no arity
check of its own. -/
theorem read_package_unknown_code_raises :
    (∀ (code : String) (stats : List ℚ),
        code ≠ "SWM" → code ≠ "RUN" → code ≠ "WLK" →
        read_package code stats = .error .unknownWorkoutType) ∧
    (∀ stats : List ℚ,
        read_package "SWM" stats ≠ .error .unknownWorkoutType) ∧
    (∀ stats : List ℚ,
        read_package "RUN" stats ≠ .error .unknownWorkoutType) ∧
    (∀ stats : List ℚ,
        read_package "WLK" stats ≠ .error .unknownWorkoutType) ∧
    read_package "RUN" [] = .error .arityMismatch ∧
    read_package "SWM" [720, 1, 80] = .error .arityMismatch := by
  refine ⟨?_, ?_, ?_, ?_, rfl, rfl⟩
  · intro code stats h1 h2 h3
    simp [read_package, h1, h2, h3]
  · intro stats h
    rcases read_package_swm_cases stats with ⟨s, hs⟩ | hs <;> simp_all
  · intro stats h
    rcases read_package_run_cases stats with ⟨r, hr⟩ | hr <;> simp_all
  · intro stats h
    rcases read_package_wlk_cases stats with ⟨w, hw⟩ | hw <;> simp_all

/-- Closed instance of C2: the code `"ABC"` is rejected with the
unknown-workout-type error. -/
theorem read_package_unknown_code_raises_witness :
    read_package "ABC" [] = .error .unknownWorkoutType :=
  read_package_unknown_code_raises.1 "ABC" []
    (by decide) (by decide) (by decide)

/-- C3: for every variant record, distance is the action count times the
per-variant step length over 1000 — step length `0.65` for running and
walking, `1.38` for swimming. -/
theorem distance_formula (r : Running) (w : SportsWalking) (s : Swimming) :
    Training.LEN_STEP = 0.65 ∧ Swimming.LEN_STEP = 1.38 ∧
    r.toTraining.get_distance = r.action * 0.65 / 1000 ∧
    w.toTraining.get_distance = w.action * 0.65 / 1000 ∧
    s.get_distance = s.action * 1.38 / 1000 := by
  refine ⟨rfl, rfl, ?_, ?_, ?_⟩ <;>
    simp [Training.get_distance, Swimming.get_distance, Running.toTraining,
      SportsWalking.toTraining, Training.LEN_STEP, Swimming.LEN_STEP,
      Training.M_IN_KM]

/-- C4: with nonzero duration, mean speed is `distance / duration` for
running and walking, while Swimming's override divides pool length times lap
count by 1000 and by the duration — and on the reference swimming package the
override's value differs from what the base-class formula would give. -/
theorem mean_speed_formula :
    (∀ r : Running, r.duration ≠ 0 →
        r.toTraining.get_mean_speed
          = r.toTraining.get_distance / r.duration) ∧
    (∀ w : SportsWalking, w.duration ≠ 0 →
        w.toTraining.get_mean_speed
          = w.toTraining.get_distance / w.duration) ∧
    (∀ s : Swimming, s.duration ≠ 0 →
        s.get_mean_speed
          = s.length_pool * s.count_pool / 1000 / s.duration) ∧
    swmSample.get_mean_speed ≠ swmSample.base_formula_mean_speed := by
  refine ⟨fun r _ => rfl, fun w _ => rfl, fun s _ => ?_, ?_⟩
  · simp [Swimming.get_mean_speed, Training.M_IN_KM]
  · norm_num [Swimming.get_mean_speed, Swimming.base_formula_mean_speed,
      Swimming.get_distance, Swimming.LEN_STEP, Training.M_IN_KM, swmSample]

/-- Closed instance of C4 at the reference running package. -/
theorem mean_speed_formula_witness :
    runSample.toTraining.get_mean_speed
      = runSample.toTraining.get_distance / runSample.duration :=
  mean_speed_formula.1 runSample one_ne_zero

/-- C5: with nonzero duration, Running's calories are
`((18 * meanSpeed + 1.79) * weight / 1000) * minutesDuration`, where the
minutes helper is `duration * 60`. -/
theorem running_calories_formula (r : Running) (_h : r.duration ≠ 0) :
    r.get_spent_calories
      = ((18 * r.toTraining.get_mean_speed + 1.79) * r.weight / 1000)
        * r.toTraining.duration_in_min ∧
    r.toTraining.duration_in_min = r.duration * 60 := by
  constructor
  · simp [Running.get_spent_calories, Running.CALORIES_MEAN_SPEED_MULTIPLIER,
      Running.CALORIES_MEAN_SPEED_SHIFT, Training.M_IN_KM]
  · simp [Training.duration_in_min, Running.toTraining, Training.H_IN_MIN]

/-- Closed instance of C5 at the reference running package. -/
theorem running_calories_formula_witness :
    runSample.get_spent_calories
      = ((18 * runSample.toTraining.get_mean_speed + 1.79)
          * runSample.weight / 1000) * runSample.toTraining.duration_in_min ∧
    runSample.toTraining.duration_in_min = runSample.duration * 60 :=
  running_calories_formula runSample one_ne_zero

/-- C6: with nonzero duration and height, SportsWalking's calories are
`(0.035*weight + (meanSpeed*0.278)^2 / (height/100) * 0.029 * weight) *
minutesDuration`. -/
theorem walking_calories_formula (w : SportsWalking)
    (_hd : w.duration ≠ 0) (_hh : w.height ≠ 0) :
    w.get_spent_calories
      = (0.035 * w.weight
          + (w.toTraining.get_mean_speed * 0.278) ^ 2 / (w.height / 100)
            * 0.029 * w.weight)
        * w.toTraining.duration_in_min := by
  simp [SportsWalking.get_spent_calories,
    SportsWalking.BIG_CALORIES_MEAN_WEIGHT_MULTIPLIER,
    SportsWalking.SMALL_CALORIES_MEAN_WEIGHT_MULTIPLIER,
    SportsWalking.KM_PER_H_IN_METR_PER_SEC, SportsWalking.SM_IN_M]

/-- Closed instance of C6 at the reference walking package. -/
theorem walking_calories_formula_witness :
    wlkSample.get_spent_calories
      = (0.035 * wlkSample.weight
          + (wlkSample.toTraining.get_mean_speed * 0.278) ^ 2
            / (wlkSample.height / 100) * 0.029 * wlkSample.weight)
        * wlkSample.toTraining.duration_in_min :=
  walking_calories_formula wlkSample one_ne_zero (by norm_num [wlkSample])

/-- C7: with nonzero duration, Swimming's calories are
`(meanSpeed + 1.1) * 2 * weight * duration`; on the reference swimming
package the mean speed is `1.0` km/h and the calories are `336.0` kcal. -/
theorem swimming_calories_formula :
    (∀ s : Swimming, s.duration ≠ 0 →
        s.get_spent_calories
          = (s.get_mean_speed + 1.1) * 2 * s.weight * s.duration) ∧
    swmSample.get_mean_speed = 1 ∧
    swmSample.get_spent_calories = 336 := by
  refine ⟨fun s _ => ?_, ?_, ?_⟩
  · simp [Swimming.get_spent_calories, Swimming.CALORIES_MEAN_SPEED_SHIFT,
      Swimming.CALORIES_WEIGHT_RATIO_SPENT_MULTIPLIER]
  · norm_num [Swimming.get_mean_speed, Training.M_IN_KM, swmSample]
  · norm_num [Swimming.get_spent_calories, Swimming.get_mean_speed,
      Swimming.CALORIES_MEAN_SPEED_SHIFT,
      Swimming.CALORIES_WEIGHT_RATIO_SPENT_MULTIPLIER, Training.M_IN_KM,
      swmSample]

/-- Closed instance of C7 at the reference swimming package. -/
theorem swimming_calories_formula_witness :
    swmSample.get_spent_calories
      = (swmSample.get_mean_speed + 1.1) * 2 * swmSample.weight
        * swmSample.duration :=
  swimming_calories_formula.1 swmSample one_ne_zero

/-- The rendered report line, expressed through the four formatted
statistics. -/
lemma get_message_eq (m : InfoMessage) (sd sdist ssp sc : String)
    (h1 : format3 m.duration = sd) (h2 : format3 m.distance = sdist)
    (h3 : format3 m.speed = ssp) (h4 : format3 m.calories = sc) :
    m.get_message
      = "Тип тренировки: " ++ m.training_type ++ "; Длительность: " ++ sd
        ++ " ч.; Дистанция: " ++ sdist ++ " км; Ср. скорость: " ++ ssp
        ++ " км/ч; Потрачено ккал: " ++ sc ++ "." := by
  simp [InfoMessage.get_message, h1, h2, h3, h4]

/-- The report of the reference running package. -/
lemma runSample_info :
    runSample.show_training_info
      = ⟨"Running", 1, 39/4, 39/4, 159561/200⟩ := by
  norm_num [Running.show_training_info, runSample, Running.toTraining,
    Training.get_distance, Training.get_mean_speed,
    Running.get_spent_calories, Training.duration_in_min,
    Running.CALORIES_MEAN_SPEED_MULTIPLIER, Running.CALORIES_MEAN_SPEED_SHIFT,
    Training.LEN_STEP, Training.M_IN_KM, Training.H_IN_MIN,
    InfoMessage.mk.injEq]

/-- The reference running package renders the reference line. -/
lemma runSample_message :
    runSample.show_training_info.get_message
      = "Тип тренировки: Running; Длительность: 1.000 ч.; Дистанция: 9.750 км; Ср. скорость: 9.750 км/ч; Потрачено ккал: 797.805." := by
  rw [runSample_info,
    get_message_eq _ "1.000" "9.750" "9.750" "797.805"
      (format3_eq_lo _ 1000 _ (by norm_num) (by norm_num) rfl)
      (format3_eq_lo _ 9750 _ (by norm_num) (by norm_num) rfl)
      (format3_eq_lo _ 9750 _ (by norm_num) (by norm_num) rfl)
      (format3_eq_lo _ 797805 _ (by norm_num) (by norm_num) rfl)]
  rfl

/-- The report of the reference walking package. -/
lemma wlkSample_info :
    wlkSample.show_training_info
      = ⟨"SportsWalking", 1, 117/20, 117/20, 13970069901/40000000⟩ := by
  norm_num [SportsWalking.show_training_info, wlkSample,
    SportsWalking.toTraining, Training.get_distance, Training.get_mean_speed,
    SportsWalking.get_spent_calories, Training.duration_in_min,
    SportsWalking.BIG_CALORIES_MEAN_WEIGHT_MULTIPLIER,
    SportsWalking.SMALL_CALORIES_MEAN_WEIGHT_MULTIPLIER,
    SportsWalking.KM_PER_H_IN_METR_PER_SEC, SportsWalking.SM_IN_M,
    Training.LEN_STEP, Training.M_IN_KM, Training.H_IN_MIN,
    InfoMessage.mk.injEq]

/-- The reference walking package renders the reference line. -/
lemma wlkSample_message :
    wlkSample.show_training_info.get_message
      = "Тип тренировки: SportsWalking; Длительность: 1.000 ч.; Дистанция: 5.850 км; Ср. скорость: 5.850 км/ч; Потрачено ккал: 349.252." := by
  rw [wlkSample_info,
    get_message_eq _ "1.000" "5.850" "5.850" "349.252"
      (format3_eq_lo _ 1000 _ (by norm_num) (by norm_num) rfl)
      (format3_eq_lo _ 5850 _ (by norm_num) (by norm_num) rfl)
      (format3_eq_lo _ 5850 _ (by norm_num) (by norm_num) rfl)
      (format3_eq_hi _ 349251 _ (by norm_num) (by norm_num) rfl)]
  rfl

/-- The report of the reference swimming package. -/
lemma swmSample_info :
    swmSample.show_training_info = ⟨"Swimming", 1, 621/625, 1, 336⟩ := by
  norm_num [Swimming.show_training_info, swmSample, Swimming.get_distance,
    Swimming.get_mean_speed, Swimming.get_spent_calories,
    Swimming.LEN_STEP, Swimming.CALORIES_MEAN_SPEED_SHIFT,
    Swimming.CALORIES_WEIGHT_RATIO_SPENT_MULTIPLIER, Training.M_IN_KM,
    InfoMessage.mk.injEq]

/-- The reference swimming package renders the reference line. -/
lemma swmSample_message :
    swmSample.show_training_info.get_message
      = "Тип тренировки: Swimming; Длительность: 1.000 ч.; Дистанция: 0.994 км; Ср. скорость: 1.000 км/ч; Потрачено ккал: 336.000." := by
  rw [swmSample_info,
    get_message_eq _ "1.000" "0.994" "1.000" "336.000"
      (format3_eq_lo _ 1000 _ (by norm_num) (by norm_num) rfl)
      (format3_eq_hi _ 993 _ (by norm_num) (by norm_num) rfl)
      (format3_eq_lo _ 1000 _ (by norm_num) (by norm_num) rfl)
      (format3_eq_lo _ 336000 _ (by norm_num) (by norm_num) rfl)]
  rfl

/-- C8 as stated fails: on the reference running package the rendered line
is not the English template instance the claim predicts — the source template
is Russian. -/
theorem message_not_english_template :
    runSample.show_training_info.get_message
      ≠ "Training type: Running; Duration: 1.000 h.; Distance: 9.750 km; Avg. speed: 9.750 km/h; Calories burned: 797.805." := by
  rw [runSample_message]
  decide

/-- C8 amended: every variant renders the single fixed template of the
source — `"Тип тренировки: {type}; Длительность: {duration:.3f} ч.; Дистанция:
{distance:.3f} км; Ср. скорость: {speed:.3f} км/ч; Потрачено ккал:
{calories:.3f}."` — with three-decimal fixed-point formatting for the four
numeric fields and the variant's display name for the type; the three
reference packages render their exact reference lines. -/
theorem message_template_renders :
    (∀ r : Running, r.show_training_info.get_message
        = "Тип тренировки: Running; Длительность: " ++ format3 r.duration
          ++ " ч.; Дистанция: " ++ format3 r.toTraining.get_distance
          ++ " км; Ср. скорость: " ++ format3 r.toTraining.get_mean_speed
          ++ " км/ч; Потрачено ккал: " ++ format3 r.get_spent_calories
          ++ ".") ∧
    (∀ w : SportsWalking, w.show_training_info.get_message
        = "Тип тренировки: SportsWalking; Длительность: " ++ format3 w.duration
          ++ " ч.; Дистанция: " ++ format3 w.toTraining.get_distance
          ++ " км; Ср. скорость: " ++ format3 w.toTraining.get_mean_speed
          ++ " км/ч; Потрачено ккал: " ++ format3 w.get_spent_calories
          ++ ".") ∧
    (∀ s : Swimming, s.show_training_info.get_message
        = "Тип тренировки: Swimming; Длительность: " ++ format3 s.duration
          ++ " ч.; Дистанция: " ++ format3 s.get_distance
          ++ " км; Ср. скорость: " ++ format3 s.get_mean_speed
          ++ " км/ч; Потрачено ккал: " ++ format3 s.get_spent_calories
          ++ ".") ∧
    runSample.show_training_info.get_message
      = "Тип тренировки: Running; Длительность: 1.000 ч.; Дистанция: 9.750 км; Ср. скорость: 9.750 км/ч; Потрачено ккал: 797.805." ∧
    wlkSample.show_training_info.get_message
      = "Тип тренировки: SportsWalking; Длительность: 1.000 ч.; Дистанция: 5.850 км; Ср. скорость: 5.850 км/ч; Потрачено ккал: 349.252." ∧
    swmSample.show_training_info.get_message
      = "Тип тренировки: Swimming; Длительность: 1.000 ч.; Дистанция: 0.994 км; Ср. скорость: 1.000 км/ч; Потрачено ккал: 336.000." :=
  ⟨fun _ => rfl, fun _ => rfl, fun _ => rfl,
    runSample_message, wlkSample_message, swmSample_message⟩

/-- C9 as stated fails: on `Running(15000, 1, 75)` the code's calories are
exactly `797.805` kcal, which is not within rounding distance of the claimed
`798.53` kcal (it differs by `0.725`). -/
theorem running_sample_calories_differ :
    runSample.get_spent_calories = 797805/1000 ∧
    ¬ |runSample.get_spent_calories - 79853/100| ≤ 1/100 := by
  have h : runSample.get_spent_calories = 797805/1000 := by
    norm_num [Running.get_spent_calories, runSample, Running.toTraining,
      Training.get_mean_speed, Training.get_distance,
      Training.duration_in_min, Running.CALORIES_MEAN_SPEED_MULTIPLIER,
      Running.CALORIES_MEAN_SPEED_SHIFT, Training.LEN_STEP, Training.M_IN_KM,
      Training.H_IN_MIN]
  refine ⟨h, ?_⟩
  rw [h]
  rw [abs_le]
  intro hc
  linarith [hc.2]

/-- C9 amended: `Running(15000, 1, 75)` yields distance `9.75` km, mean
speed `9.75` km/h, and calories `((18*9.75 + 1.79)*75/1000)*60 = 797.805`
kcal (about `797.81`, not `798.53`). -/
theorem running_sample_statistics :
    runSample.toTraining.get_distance = 9.75 ∧
    runSample.toTraining.get_mean_speed = 9.75 ∧
    runSample.get_spent_calories = ((18 * 9.75 + 1.79) * 75 / 1000) * 60 ∧
    runSample.get_spent_calories = 797805/1000 := by
  refine ⟨?_, ?_, ?_, ?_⟩ <;>
    norm_num [Running.get_spent_calories, runSample, Running.toTraining,
      Training.get_mean_speed, Training.get_distance,
      Training.duration_in_min, Running.CALORIES_MEAN_SPEED_MULTIPLIER,
      Running.CALORIES_MEAN_SPEED_SHIFT, Training.LEN_STEP, Training.M_IN_KM,
      Training.H_IN_MIN]

/-- C10: a record built directly on the base class computes calories as
`duration * weight` — a fallback distinct, on the reference inputs, from
each of the three per-variant calorie values. -/
theorem base_class_calories_fallback :
    (∀ t : Training, t.get_spent_calories = t.duration * t.weight) ∧
    (Training.mk 15000 1 75).get_spent_calories
      ≠ runSample.get_spent_calories ∧
    (Training.mk 9000 1 75).get_spent_calories
      ≠ wlkSample.get_spent_calories ∧
    (Training.mk 720 1 80).get_spent_calories
      ≠ swmSample.get_spent_calories := by
  refine ⟨fun t => rfl, ?_, ?_, ?_⟩ <;>
    norm_num [Training.get_spent_calories, runSample, wlkSample, swmSample,
      Running.get_spent_calories, SportsWalking.get_spent_calories,
      Swimming.get_spent_calories, Running.toTraining,
      SportsWalking.toTraining, Training.get_mean_speed,
      Training.get_distance, Training.duration_in_min, Swimming.get_mean_speed,
      Running.CALORIES_MEAN_SPEED_MULTIPLIER, Running.CALORIES_MEAN_SPEED_SHIFT,
      SportsWalking.BIG_CALORIES_MEAN_WEIGHT_MULTIPLIER,
      SportsWalking.SMALL_CALORIES_MEAN_WEIGHT_MULTIPLIER,
      SportsWalking.KM_PER_H_IN_METR_PER_SEC, SportsWalking.SM_IN_M,
      Swimming.CALORIES_MEAN_SPEED_SHIFT,
      Swimming.CALORIES_WEIGHT_RATIO_SPENT_MULTIPLIER,
      Training.LEN_STEP, Training.M_IN_KM, Training.H_IN_MIN]
